import Mathlib

/-!
Verification of the law-agent repository's Hybrid Legal Retrieval Engine and
Adaptive Workflow Orchestrator specification against the code.

The repository's source under `src/` contains the Next.js frontend
(`frontend/app/...`), the README, and the backend workflow design document
(`backend/docs/agent.md`).  The backend core (hybrid retrieval coordinator,
rank fusion engine, safety classifier, complexity router, stage pipeline
executor, workflow orchestrator) is not present under `src/`; those
components are modelled from the spec, and each such definition carries a
doc comment starting with `Modelled from the spec:`.  Frontend components
(FileUpload, StateSelector, ChatPage quick replies) are embedded directly
from the TypeScript source.
-/

namespace LawAgent

/-! ## Rank Fusion Engine (spec §4.2) -/

/-- Modelled from the spec: the RRF smoothing constant `K`,
"a fixed smoothing constant (default 60)".  The rank fusion engine is not
under `src/`. -/
def rrfDefaultK : ℚ := 60

/-- Modelled from the spec: the contribution of one ranked list to a chunk's
fused score: `1/(K + rank_in_that_list)` when the chunk occurs in the list
(ranks counted from 1), and `0` when the chunk is absent from the list. -/
def rrfContribution (K : ℚ) (l : List ℕ) (c : ℕ) : ℚ :=
  match l.indexOf? c with
  | some r => 1 / (K + (r + 1 : ℕ))
  | none => 0

/-- Modelled from the spec: the Rank Fusion Engine's fused score of a chunk,
"Σ over lists containing it of `1/(K + rank_in_that_list)`", over N ranked
lists of chunk references. -/
def rrfScore (K : ℚ) (lists : List (List ℕ)) (c : ℕ) : ℚ :=
  (lists.map (fun l => rrfContribution K l c)).sum

theorem rrfScore_perm (K : ℚ) (lists lists' : List (List ℕ)) (c : ℕ)
    (h : lists.Perm lists') : rrfScore K lists c = rrfScore K lists' c := by
  unfold rrfScore
  exact List.Perm.sum_eq (List.Perm.map _ h)

/-- C1: the Rank Fusion Engine is a pure function: over the two input lists
(lexical, vector), a hit's fused score is the sum over the lists of
`1/(K + rank)`, a chunk absent from a list contributes 0 for that list, the
default smoothing constant is 60, and fusing (lexical, vector) yields
identical scores to fusing (vector, lexical). -/
theorem rrf_fusion_sum_formula_and_commutative (K : ℚ) (lex vec : List ℕ) (c : ℕ) :
    rrfScore K [lex, vec] c = rrfContribution K lex c + rrfContribution K vec c ∧
    (c ∉ lex → rrfContribution K lex c = 0) ∧
    rrfScore K [lex, vec] c = rrfScore K [vec, lex] c ∧
    rrfDefaultK = 60 := by
  refine ⟨?_, ?_, ?_, rfl⟩
  · simp [rrfScore]
  · intro h
    have hn : lex.indexOf? c = none :=
      List.indexOf?_eq_none_iff.mpr (fun x hx hbeq => h (beq_iff_eq.mp hbeq ▸ hx))
    simp [rrfContribution, hn]
  · exact rrfScore_perm K _ _ c (List.Perm.swap vec lex [])

/-- Concrete instance of C1: the fused score over lists `[5, 7]` and `[9, 7]`
for chunk `9` decomposes as the formula says, chunk `9` absent from the first
list contributes 0 there, and swapping the two lists leaves the score. -/
theorem rrf_fusion_sum_formula_and_commutative_witness :
    rrfScore 60 [[5, 7], [9, 7]] 9
      = rrfContribution 60 [5, 7] 9 + rrfContribution 60 [9, 7] 9 ∧
    rrfContribution 60 [5, 7] 9 = 0 ∧
    rrfScore 60 [[5, 7], [9, 7]] 9 = rrfScore 60 [[9, 7], [5, 7]] 9 :=
  ⟨(rrf_fusion_sum_formula_and_commutative 60 [5, 7] [9, 7] 9).1,
   (rrf_fusion_sum_formula_and_commutative 60 [5, 7] [9, 7] 9).2.1 (by decide),
   (rrf_fusion_sum_formula_and_commutative 60 [5, 7] [9, 7] 9).2.2.1⟩

/-! ## Complexity Router (spec §4.5) -/

/-- The two analysis depths chosen by the Complexity Router. -/
inductive Path where
  | simple
  | complex
deriving DecidableEq

/-- Modelled from the spec: the Complexity Router's `Route(turn, caseState)`
decision (the router is not under `src/`).  The spec's heuristics are
evaluated in a fixed order, first match wins:
(1) a document is attached → complex;
(2) more than one secondary issue already identified → complex;
(3) computed complexity score > 0.4 → complex;
(4) multiple jurisdictions referenced → complex;
(5) short query matching a simple-question template AND score ≤ 0.3 AND no
secondary issues → simple; otherwise fall back to a remote classifier's
binary decision.  The sub-computations (complexity score, template match,
jurisdiction count) are passed as the already-computed inputs the heuristics
read. -/
def route (hasDocument : Bool) (secondaryIssues : ℕ) (complexityScore : ℚ)
    (multipleJurisdictions : Bool) (simpleTemplateMatch : Bool)
    (remoteDecision : Path) : Path :=
  if hasDocument then Path.complex
  else if 1 < secondaryIssues then Path.complex
  else if (4 : ℚ) / 10 < complexityScore then Path.complex
  else if multipleJurisdictions then Path.complex
  else if simpleTemplateMatch && decide (complexityScore ≤ (3 : ℚ) / 10)
      && decide (secondaryIssues = 0) then Path.simple
  else remoteDecision

/-- C5: a turn with an attached document always routes `complex`, regardless
of the values of all other heuristics, because the heuristics run in a fixed
order with first match winning and the attached-document heuristic is first. -/
theorem route_document_always_complex (secondaryIssues : ℕ) (complexityScore : ℚ)
    (multipleJurisdictions simpleTemplateMatch : Bool) (remoteDecision : Path) :
    route true secondaryIssues complexityScore multipleJurisdictions
      simpleTemplateMatch remoteDecision = Path.complex := rfl

/-! ## Safety Classifier (spec §4.4) -/

/-- The six safety categories of a conversational turn. -/
inductive SafetyCategory where
  | criminal
  | family_violence
  | urgent_deadline
  | child_welfare
  | self_harm
  | none
deriving DecidableEq

/-- Modelled from the spec: the curated per-category term list for
`self_harm` ("explicit self-harm language"); the safety classifier's keyword
lists are not under `src/`. -/
def selfHarmPhrases : List String :=
  ["kill myself", "end my life", "suicide", "hurt myself"]

/-- Modelled from the spec: the curated term list for `urgent_deadline`
("explicit mention of an upcoming court date within a stated short window"). -/
def urgentDeadlinePhrases : List String :=
  ["court date tomorrow", "court tomorrow", "hearing tomorrow", "due tomorrow"]

/-- Whether `needle` occurs as a contiguous run inside `haystack`. -/
def containsSub (needle : List Char) : List Char → Bool
  | [] => needle.isEmpty
  | c :: rest => needle.isPrefixOf (c :: rest) || containsSub needle rest

/-- Whether `phrase` occurs inside `text` (keyword/pattern match). -/
def containsPhrase (text phrase : String) : Bool :=
  containsSub phrase.toList text.toList

/-- Modelled from the spec: Stage 1 of the Safety Classifier — the
keyword/pattern match against curated per-category term lists, with no
external call.  A high-confidence self-harm match returns `self_harm`
immediately; it is checked first so that explicit self-harm language always
wins (the spec requires that an input containing a curated self-harm phrase
always yields `self_harm`). -/
def keywordStage (text : String) : Option SafetyCategory :=
  if selfHarmPhrases.any (containsPhrase text) then some SafetyCategory.self_harm
  else if urgentDeadlinePhrases.any (containsPhrase text) then
    some SafetyCategory.urgent_deadline
  else Option.none

/-- Modelled from the spec: `Classify(turnText, history)`.  Stage 1 is the
keyword stage; if it is inconclusive and the turn is not a short trivial
follow-up, the classifier escalates to one remote classifier call (modelled
by `remote`, with the malformed-output-to-`none` handling folded into it).
The second component counts remote-classifier calls made for the turn. -/
def classify (text : String) (shortTrivialFollowUp : Bool)
    (remote : String → SafetyCategory) : SafetyCategory × ℕ :=
  match keywordStage text with
  | some c => (c, 0)
  | Option.none =>
    if shortTrivialFollowUp then (SafetyCategory.none, 0)
    else (remote text, 1)

/-- C3: for every input turn text containing a curated self-harm phrase,
`Classify` returns `self_harm` from its keyword stage and the remote LLM
classifier is never invoked for that turn (remote call count is zero). -/
theorem classify_self_harm_keyword_no_remote (text : String)
    (shortTrivialFollowUp : Bool) (remote : String → SafetyCategory)
    (h : ∃ p ∈ selfHarmPhrases, containsPhrase text p = true) :
    classify text shortTrivialFollowUp remote = (SafetyCategory.self_harm, 0) := by
  have hany : selfHarmPhrases.any (containsPhrase text) = true := by
    obtain ⟨p, hp, hc⟩ := h
    exact List.any_eq_true.mpr ⟨p, hp, hc⟩
  simp [classify, keywordStage, hany]

/-- Concrete instance of C3: the turn "i want to kill myself tonight"
contains the curated phrase "kill myself" and classifies `self_harm` with
zero remote calls, whatever the remote classifier would have answered. -/
theorem classify_self_harm_keyword_no_remote_witness :
    classify "i want to kill myself tonight" false
      (fun _ => SafetyCategory.none) = (SafetyCategory.self_harm, 0) :=
  classify_self_harm_keyword_no_remote "i want to kill myself tonight" false
    (fun _ => SafetyCategory.none) ⟨"kill myself", by decide, by decide⟩

/-! ## Stage Pipeline Executor (spec §4.6, stage numbering per
`src/backend/docs/agent.md`: stage 1 issue identification, stage 2
jurisdiction resolution, stage 3 fact structuring, stage 4 legal elements
mapping, …, stage 8 escalation). -/

/-- Outcome recorded for one pipeline stage. -/
inductive StageStatus where
  | complete
  | degraded
  | unavailable
deriving DecidableEq

/-- Modelled from the spec: the declared per-stage input requirements of the
Stage Pipeline Executor (not under `src/`): "jurisdiction resolution feeding
legal-elements mapping" — stage 4 requires stage 2's output. -/
def requiredUpstream (s : ℕ) : List ℕ :=
  if s = 4 then [2] else []

/-- The complex path runs all eight stages in fixed order (spec §4.5). -/
def complexPath : List ℕ := [1, 2, 3, 4, 5, 6, 7, 8]

/-- Accumulated stage outputs of one pipeline run: `Option.none` for a stage
not yet run, otherwise the stage's recorded status. -/
def StageOutputs : Type := ℕ → Option StageStatus

/-- Record stage `s`'s status in the accumulated case state. -/
def setStage (cs : StageOutputs) (s : ℕ) (st : StageStatus) : StageOutputs :=
  fun n => if n = s then some st else cs n

/-- Modelled from the spec: running one stage of the Stage Pipeline Executor.
If a required upstream stage did not complete, the stage explicitly reports
its own output as degraded rather than fabricate missing inputs; otherwise
the stage's own outcome (its transform plus the retried external reasoning
call, summarized by `own`) is recorded. -/
def runStage (own : ℕ → StageStatus) (cs : StageOutputs) (s : ℕ) : StageStatus :=
  if (requiredUpstream s).all (fun u => cs u == some StageStatus.complete) then own s
  else StageStatus.degraded

/-- Modelled from the spec: the Stage Pipeline Executor runs the chosen
path's stages strictly in sequence, each stage reading the accumulated case
state of the previously completed stages. -/
def execPipeline (own : ℕ → StageStatus) (path : List ℕ) : StageOutputs :=
  path.foldl (fun cs s => setStage cs s (runStage own cs s)) (fun _ => Option.none)

/-- C4: on the complex path, when stage 2 (jurisdiction resolution) is
degraded, every stage that requires it — in particular stage 4 (legal
elements mapping) — reports its own output as degraded in the final case
state rather than completing. -/
theorem pipeline_degradation_propagates (own : ℕ → StageStatus)
    (h : own 2 = StageStatus.degraded) :
    execPipeline own complexPath 2 = some StageStatus.degraded ∧
    execPipeline own complexPath 4 = some StageStatus.degraded ∧
    ∀ s ∈ complexPath, 2 ∈ requiredUpstream s →
      execPipeline own complexPath s = some StageStatus.degraded := by
  refine ⟨?_, ?_, ?_⟩
  · simp [execPipeline, complexPath, setStage, runStage, requiredUpstream, h]
  · simp [execPipeline, complexPath, setStage, runStage, requiredUpstream, h]
  · intro s hs h2
    have h4 : s = 4 := by
      by_contra hne
      simp [requiredUpstream, hne] at h2
    subst h4
    simp [execPipeline, complexPath, setStage, runStage, requiredUpstream, h]

/-- Concrete instance of C4: with every stage healthy except stage 2 forced
degraded, the complex-path run marks both stage 2 and stage 4 degraded. -/
theorem pipeline_degradation_propagates_witness :
    execPipeline (fun n => if n = 2 then StageStatus.degraded else StageStatus.complete)
      complexPath 2 = some StageStatus.degraded ∧
    execPipeline (fun n => if n = 2 then StageStatus.degraded else StageStatus.complete)
      complexPath 4 = some StageStatus.degraded :=
  ⟨(pipeline_degradation_propagates
      (fun n => if n = 2 then StageStatus.degraded else StageStatus.complete) rfl).1,
   (pipeline_degradation_propagates
      (fun n => if n = 2 then StageStatus.degraded else StageStatus.complete) rfl).2.1⟩

/-! ## Embedding retry and lexical-only degradation (spec §4.1 step 1, §5) -/

/-- Modelled from the spec: the maximum number of retries of the query
embedding call ("retry up to 3 times"). -/
def maxEmbedRetries : ℕ := 3

/-- Modelled from the spec: the exponential backoff delay, in seconds,
before the `k`-th retry (base 1s, doubling). -/
def backoffDelay (k : ℕ) : ℕ := 2 ^ k

/-- Modelled from the spec: the bounded retry loop around the Embedding
Provider Adapter.  `provider i` is the outcome of the `i`-th call (an
embedding, or failure).  Returns the embedding obtained (if any), the number
of calls made, and the list of backoff delays waited between calls. -/
def retryLoop (provider : ℕ → Option (List ℚ)) : ℕ → ℕ → Option (List ℚ) × ℕ × List ℕ
  | _, 0 => (Option.none, 0, [])
  | i, fuel + 1 =>
    match provider i with
    | some e => (some e, 1, [])
    | Option.none =>
      if fuel = 0 then (Option.none, 1, [])
      else
        match retryLoop provider (i + 1) fuel with
        | (r, n, ds) => (r, n + 1, backoffDelay i :: ds)

/-- Modelled from the spec: compute the query embedding with at most
`maxEmbedRetries` retries after the initial call. -/
def embedWithRetry (provider : ℕ → Option (List ℚ)) : Option (List ℚ) × ℕ × List ℕ :=
  retryLoop provider 0 (1 + maxEmbedRetries)

/-- The number of provider calls made by the retry loop never exceeds its
fuel (so retrying is always bounded). -/
theorem retryLoop_calls_le (provider : ℕ → Option (List ℚ)) :
    ∀ fuel i, (retryLoop provider i fuel).2.1 ≤ fuel := by
  intro fuel
  induction fuel with
  | zero => intro i; simp [retryLoop]
  | succ n ih =>
    intro i
    unfold retryLoop
    cases hp : provider i with
    | some e => simp
    | none =>
      by_cases hn : n = 0
      · simp [hn]
      · simpa [hn] using Nat.succ_le_succ (ih (i + 1))

/-- Modelled from the spec: the slice of `Search` that consumes the query
embedding (spec §4.1 steps 1–3).  Embedding failure is not fatal: on
exhaustion of the retries, the search proceeds in lexical-only mode (the
vector list is empty and fusion sees only the lexical list) instead of
returning an error. -/
def searchWithEmbedding (provider : ℕ → Option (List ℚ))
    (lexicalHits : List ℕ) (vectorIndex : List ℚ → List ℕ) :
    Except String (List (ℕ × ℚ) × Bool) :=
  match (embedWithRetry provider).1 with
  | some e =>
    let vec := vectorIndex e
    Except.ok ((lexicalHits ++ vec).dedup.map
      (fun c => (c, rrfScore rrfDefaultK [lexicalHits, vec] c)), false)
  | Option.none =>
    Except.ok (lexicalHits.dedup.map
      (fun c => (c, rrfScore rrfDefaultK [lexicalHits] c)), true)

/-- C6: failure of the query-embedding computation is not fatal: the
embedding call is retried at most 3 times (so at most 4 calls in all, never
indefinitely), the backoff delays double from a base of 1 second, and when
every call fails the retry loop stops after exactly the 4 bounded calls with
delays 1s, 2s, 4s, and `Search` proceeds in lexical-only mode returning an
ok result instead of an error. -/
theorem embedding_retry_bounded_and_lexical_only
    (provider : ℕ → Option (List ℚ)) (lexicalHits : List ℕ)
    (vectorIndex : List ℚ → List ℕ) (hfail : ∀ i, provider i = Option.none) :
    (embedWithRetry provider).2.1 ≤ 1 + maxEmbedRetries ∧
    maxEmbedRetries = 3 ∧
    backoffDelay 0 = 1 ∧ (∀ k, backoffDelay (k + 1) = 2 * backoffDelay k) ∧
    embedWithRetry provider = (Option.none, 4, [1, 2, 4]) ∧
    searchWithEmbedding provider lexicalHits vectorIndex =
      Except.ok (lexicalHits.dedup.map
        (fun c => (c, rrfScore rrfDefaultK [lexicalHits] c)), true) := by
  have hrun : embedWithRetry provider = (Option.none, 4, [1, 2, 4]) := by
    simp [embedWithRetry, maxEmbedRetries, retryLoop, hfail, backoffDelay]
  refine ⟨retryLoop_calls_le provider _ 0, rfl, rfl, ?_, hrun, ?_⟩
  · intro k
    simp [backoffDelay, pow_succ, Nat.mul_comm]
  · simp [searchWithEmbedding, hrun]

/-- Concrete instance of C6: with a provider that always fails, the call
count is bounded by 4, the run makes exactly 4 calls with delays 1, 2, 4,
and the search returns an ok lexical-only result for lexical hits `[3, 1]`. -/
theorem embedding_retry_bounded_and_lexical_only_witness :
    (embedWithRetry (fun _ => Option.none)).2.1 ≤ 1 + maxEmbedRetries ∧
    embedWithRetry (fun _ => Option.none) = (Option.none, 4, [1, 2, 4]) ∧
    searchWithEmbedding (fun _ => Option.none) [3, 1] (fun _ => []) =
      Except.ok ([3, 1].dedup.map
        (fun c => (c, rrfScore rrfDefaultK [[3, 1]] c)), true) :=
  ⟨(embedding_retry_bounded_and_lexical_only (fun _ => Option.none) [3, 1]
      (fun _ => []) (fun _ => rfl)).1,
   (embedding_retry_bounded_and_lexical_only (fun _ => Option.none) [3, 1]
      (fun _ => []) (fun _ => rfl)).2.2.2.2.1,
   (embedding_retry_bounded_and_lexical_only (fun _ => Option.none) [3, 1]
      (fun _ => []) (fun _ => rfl)).2.2.2.2.2⟩

/-! ## Confidence Classifier and Remote Fallback merge (spec §4.1 steps 5–6,
§4.3) -/

/-- Confidence tier of a retrieval result set. -/
inductive Tier where
  | high
  | medium
  | low
  | none
deriving DecidableEq

/-- Where a fused result came from. -/
inductive Provenance where
  | localCorpus
  | remote
deriving DecidableEq

/-- A fused retrieval result (spec §3). -/
structure FusedResult where
  chunk : ℕ
  score : ℚ
  provenance : Provenance
deriving DecidableEq

/-- The three cut points of one confidence scale (spec §4.3). -/
structure CutPoints where
  highCut : ℚ
  mediumCut : ℚ
  lowCut : ℚ

/-- Modelled from the spec: the named cut-point constants for the fused-RRF
scale (the Confidence Classifier is not under `src/`; the spec's example
values high ≥ 0.6, medium ≥ 0.4, low ≥ 0.25 are used). -/
def fusedScaleCuts : CutPoints :=
  ⟨(6 : ℚ) / 10, (4 : ℚ) / 10, (25 : ℚ) / 100⟩

/-- Modelled from the spec: the Confidence Classifier's pure map from a
scalar score to a tier via the three cut points. -/
def classifyScore (cuts : CutPoints) (s : ℚ) : Tier :=
  if cuts.highCut ≤ s then Tier.high
  else if cuts.mediumCut ≤ s then Tier.medium
  else if cuts.lowCut ≤ s then Tier.low
  else Tier.none

/-- Modelled from the spec: the confidence tier of a result set — the top
result's score against the cut points, and `none` for an empty result set. -/
def classifyTop (cuts : CutPoints) : List FusedResult → Tier
  | [] => Tier.none
  | r :: _ => classifyScore cuts r.score

/-- What `Search` returns to its caller (spec §4.1 step 8 / §6). -/
structure SearchOutcome where
  results : List FusedResult
  tier : Tier
  usedFallback : Bool
deriving DecidableEq

/-- Modelled from the spec: step 6 of the Hybrid Retrieval Coordinator (not
under `src/`).  If confidence is `none` or `low`, or the jurisdiction is
unsupported, and the Remote Legal Database Fallback Adapter is reachable
(`fallback = some hits`), its hits are merged as additional `FusedResult`s
with provenance `remote`, appended after all local results. -/
def mergeFallback (localResults : List FusedResult) (cuts : CutPoints)
    (jurisdictionSupported : Bool) (fallback : Option (List ℕ)) : SearchOutcome :=
  match fallback with
  | some hits =>
    if (classifyTop cuts localResults == Tier.none) ||
        (classifyTop cuts localResults == Tier.low) || !jurisdictionSupported then
      ⟨localResults ++ hits.map (fun c => ⟨c, 0, Provenance.remote⟩),
       classifyTop cuts localResults, true⟩
    else ⟨localResults, classifyTop cuts localResults, false⟩
  | Option.none => ⟨localResults, classifyTop cuts localResults, false⟩

/-- C2: whenever local confidence is `none` or `low` or the jurisdiction is
unsupported, and the fallback adapter is reachable, the remote fallback is
invoked (`usedFallback = true`), its hits are appended after all local
results as `FusedResult`s with provenance `remote` (so a remote result never
outranks a local hit), and in particular a `none` local tier always yields
`usedFallback = true`. -/
theorem fallback_invoked_and_remote_appended (localResults : List FusedResult)
    (cuts : CutPoints) (jurisdictionSupported : Bool) (hits : List ℕ)
    (hloc : ∀ r ∈ localResults, r.provenance = Provenance.localCorpus)
    (hneed : classifyTop cuts localResults = Tier.none ∨
      classifyTop cuts localResults = Tier.low ∨ jurisdictionSupported = false) :
    (mergeFallback localResults cuts jurisdictionSupported (some hits)).usedFallback
      = true ∧
    (mergeFallback localResults cuts jurisdictionSupported (some hits)).results
      = localResults ++ hits.map (fun c => ⟨c, 0, Provenance.remote⟩) ∧
    (∀ r ∈ ((mergeFallback localResults cuts jurisdictionSupported
        (some hits)).results.take localResults.length),
      r.provenance = Provenance.localCorpus) ∧
    (∀ r ∈ ((mergeFallback localResults cuts jurisdictionSupported
        (some hits)).results.drop localResults.length),
      r.provenance = Provenance.remote) ∧
    (classifyTop cuts localResults = Tier.none →
      (mergeFallback localResults cuts jurisdictionSupported
        (some hits)).usedFallback = true) := by
  have hneedb : ((classifyTop cuts localResults == Tier.none) ||
      (classifyTop cuts localResults == Tier.low) || !jurisdictionSupported) = true := by
    rcases hneed with h | h | h <;> simp [h]
  have hres : (mergeFallback localResults cuts jurisdictionSupported
      (some hits)).results
      = localResults ++ hits.map (fun c => ⟨c, 0, Provenance.remote⟩) := by
    simp [mergeFallback, hneedb]
  have hused : (mergeFallback localResults cuts jurisdictionSupported
      (some hits)).usedFallback = true := by
    simp [mergeFallback, hneedb]
  refine ⟨hused, hres, ?_, ?_, fun _ => hused⟩
  · intro r hr
    rw [hres, List.take_left] at hr
    exact hloc r hr
  · intro r hr
    rw [hres, List.drop_left] at hr
    obtain ⟨c, _, hc⟩ := List.mem_map.mp hr
    rw [← hc]

/-- Concrete instance of C2: with no local results (tier `none`), a supported
jurisdiction, and a reachable fallback returning chunk 42, the fallback is
used and the single returned result has provenance `remote`. -/
theorem fallback_invoked_and_remote_appended_witness :
    (mergeFallback [] fusedScaleCuts true (some [42])).usedFallback = true ∧
    (mergeFallback [] fusedScaleCuts true (some [42])).results
      = [⟨42, 0, Provenance.remote⟩] :=
  ⟨(fallback_invoked_and_remote_appended [] fusedScaleCuts true [42]
      (by simp) (Or.inl rfl)).1,
   (fallback_invoked_and_remote_appended [] fusedScaleCuts true [42]
      (by simp) (Or.inl rfl)).2.1⟩

/-! ## Frontend: quick replies (src/unnamed/part_000,
src/frontend/app/chat/page.tsx) -/

/-- Embedded from `src/unnamed/part_000` lines 153–155: the hard-coded
fallback list of quick replies used when agent state supplies none. -/
def defaultQuickReplies : List String :=
  ["What protections do I have?", "Can you give examples?",
   "What should I do next?", "How do I file a claim?"]

/-- Embedded from `src/unnamed/part_000` (`ChatPage.quickReplies`):
`agentState?.quick_replies || [...defaults]` — the agent-state list when
present (a present JavaScript array is used even when empty), otherwise the
four defaults. -/
def chatPageQuickReplies (agentReplies : Option (List String)) : List String :=
  match agentReplies with
  | some rs => rs
  | Option.none => defaultQuickReplies

/-- Embedded from `src/unnamed/part_000` lines 469–496 (`QuickRepliesPanel`):
the panel renders `replies.slice(0, 3)`. -/
def quickRepliesPanelDisplayed (replies : List String) : List String :=
  replies.take 3

/-- Embedded from `src/frontend/app/chat/page.tsx` lines 323–351
(`QuickRepliesPanel`): this variant renders every reply it receives. -/
def chatQuickRepliesPanelDisplayed (replies : List String) : List String :=
  replies

/-- Modelled from the spec: the Workflow Orchestrator's response assembly
(not under `src/`) emits `quick_replies` as 2–4 short strings: the agent's
suggestions are used (truncated to four) when at least two are available,
otherwise the curated defaults stand in. -/
def assembleQuickReplies (suggested : List String) : List String :=
  if 2 ≤ suggested.length then suggested.take 4 else defaultQuickReplies.take 4

/-- C7: every assembled turn result carries between 2 and 4 quick replies,
and both chat-page consumers of agent-state quick replies therefore always
have between 2 and 4 to display (including the `part_000` page's hard-coded
fallback and its panel's `slice(0, 3)`). -/
theorem quick_replies_between_two_and_four (suggested : List String) :
    (2 ≤ (assembleQuickReplies suggested).length ∧
      (assembleQuickReplies suggested).length ≤ 4) ∧
    (2 ≤ (chatPageQuickReplies (some (assembleQuickReplies suggested))).length ∧
      (chatPageQuickReplies (some (assembleQuickReplies suggested))).length ≤ 4) ∧
    (2 ≤ (chatPageQuickReplies Option.none).length ∧
      (chatPageQuickReplies Option.none).length ≤ 4) ∧
    (2 ≤ (quickRepliesPanelDisplayed (assembleQuickReplies suggested)).length ∧
      (quickRepliesPanelDisplayed (assembleQuickReplies suggested)).length ≤ 4) ∧
    (2 ≤ (chatQuickRepliesPanelDisplayed (assembleQuickReplies suggested)).length ∧
      (chatQuickRepliesPanelDisplayed (assembleQuickReplies suggested)).length ≤ 4) := by
  have hb : 2 ≤ (assembleQuickReplies suggested).length ∧
      (assembleQuickReplies suggested).length ≤ 4 := by
    unfold assembleQuickReplies
    by_cases h : 2 ≤ suggested.length
    · rw [if_pos h]
      simp only [List.length_take]
      omega
    · rw [if_neg h]
      decide
  refine ⟨hb, hb, by simp [chatPageQuickReplies, defaultQuickReplies], ?_, hb⟩
  constructor
  · have := hb.1
    simp only [quickRepliesPanelDisplayed, List.length_take]
    omega
  · simp only [quickRepliesPanelDisplayed, List.length_take]
    omega

/-! ## Frontend: file upload (src/frontend/app/components/FileUpload.tsx,
src/frontend/app/chat/page.tsx FileUpload) -/

/-- Embedded from both FileUpload implementations: a character survives
`file.name.replace(/[^a-zA-Z0-9.-]/g, "_")` unchanged iff it matches
`[a-zA-Z0-9.-]`. -/
def isSafeChar (c : Char) : Bool :=
  ('a' ≤ c && c ≤ 'z') || ('A' ≤ c && c ≤ 'Z') || ('0' ≤ c && c ≤ '9') ||
    c == '.' || c == '-'

/-- Embedded from both FileUpload implementations:
`file.name.replace(/[^a-zA-Z0-9.-]/g, "_")`. -/
def sanitizeFilename (name : String) : String :=
  String.mk (name.toList.map (fun c => if isSafeChar c then c else '_'))

/-- Embedded from `src/frontend/app/components/FileUpload.tsx` lines 29–32:
the storage object path built in `handleFileChange`. -/
def uploadFilePath (timestamp : ℕ) (name : String) : String :=
  "uploads/" ++ toString timestamp ++ "_" ++ sanitizeFilename name

/-- Embedded from `src/frontend/app/chat/page.tsx` lines 425–429
(`FileUpload.handleFileChange`): the identical storage object path built by
the chat page's FileUpload. -/
def chatUploadFilePath (timestamp : ℕ) (name : String) : String :=
  "uploads/" ++ toString timestamp ++ "_" ++ sanitizeFilename name

/-- A character allowed to appear in the sanitized filename portion of a
stored path: a regex-safe character or the replacement underscore. -/
def isPathSafeChar (c : Char) : Bool :=
  isSafeChar c || c == '_'

/-- C9: in both FileUpload implementations the stored object path is
`uploads/` + timestamp + `_` + the sanitized original filename, every
character of the sanitized filename is in `[a-zA-Z0-9.-_]`, and the
user-supplied filename can contribute no path separator. -/
theorem upload_path_sanitized (timestamp : ℕ) (name : String) :
    uploadFilePath timestamp name
      = "uploads/" ++ toString timestamp ++ "_" ++ sanitizeFilename name ∧
    chatUploadFilePath timestamp name = uploadFilePath timestamp name ∧
    (∀ c ∈ (sanitizeFilename name).toList, isPathSafeChar c = true) ∧
    '/' ∉ (sanitizeFilename name).toList ∧
    '\\' ∉ (sanitizeFilename name).toList := by
  have hsafe : ∀ c ∈ (sanitizeFilename name).toList, isPathSafeChar c = true := by
    intro c hc
    obtain ⟨x, _, hx⟩ := List.mem_map.mp hc
    subst hx
    by_cases h : isSafeChar x = true
    · rw [if_pos h]
      simp [isPathSafeChar, h]
    · rw [if_neg h]
      decide
  refine ⟨rfl, rfl, hsafe, ?_, ?_⟩
  · intro hmem
    exact absurd (hsafe _ hmem) (by decide)
  · intro hmem
    exact absurd (hsafe _ hmem) (by decide)

/-- React component state of a FileUpload (`isUploading`, `uploadedFile`). -/
structure UploadState where
  isUploading : Bool
  uploadedFile : Option String
deriving DecidableEq

/-- The selected file as the handler sees it: name and size in bytes. -/
structure FileInfo where
  name : String
  size : ℕ
deriving DecidableEq

/-- Everything externally observable from one `handleFileChange` run. -/
structure HandlerResult where
  state : UploadState
  uploadInitiated : Bool
  onFileUploadedCalls : List (String × String)
  alerts : List String
  inputCleared : Bool
deriving DecidableEq

/-- Embedded from `src/frontend/app/chat/page.tsx` line 396. -/
def MAX_FILE_SIZE_MB : ℕ := 10

/-- Embedded from `src/frontend/app/chat/page.tsx` line 397. -/
def MAX_FILE_SIZE_BYTES : ℕ := MAX_FILE_SIZE_MB * 1024 * 1024

/-- Embedded from `src/frontend/app/chat/page.tsx`
(`FileUpload.handleFileChange`, the variant with the size check).  `file` is
`e.target.files?.[0]`; `timestamp` is `Date.now()`; `uploadResult` maps the
storage path to the outcome of the Supabase upload, `Except.ok` carrying the
public URL. -/
def handleFileChange (st : UploadState) (file : Option FileInfo) (timestamp : ℕ)
    (uploadResult : String → Except String String) : HandlerResult :=
  match file with
  | Option.none => ⟨st, false, [], [], false⟩
  | some f =>
    if MAX_FILE_SIZE_BYTES < f.size then
      ⟨st, false, [], ["File too large. Maximum size is 10MB."], true⟩
    else
      match uploadResult (chatUploadFilePath timestamp f.name) with
      | Except.ok url =>
        ⟨⟨false, some f.name⟩, true, [(url, f.name)], [], true⟩
      | Except.error msg =>
        ⟨⟨false, Option.none⟩, true, [], [msg], true⟩

/-- C8: a selected file larger than 10 MB is rejected before any upload: no
storage upload is initiated, `onFileUploaded` is never called, the file
input is cleared, and the component state is unchanged. -/
theorem oversized_file_rejected_atomically (st : UploadState) (f : FileInfo)
    (timestamp : ℕ) (uploadResult : String → Except String String)
    (h : 10 * 1024 * 1024 < f.size) :
    (handleFileChange st (some f) timestamp uploadResult).uploadInitiated = false ∧
    (handleFileChange st (some f) timestamp uploadResult).onFileUploadedCalls = [] ∧
    (handleFileChange st (some f) timestamp uploadResult).state = st ∧
    (handleFileChange st (some f) timestamp uploadResult).inputCleared = true := by
  have hgt : MAX_FILE_SIZE_BYTES < f.size := h
  simp [handleFileChange, hgt]

/-- Concrete instance of C8: a 10 MB + 1 byte file is rejected atomically. -/
theorem oversized_file_rejected_atomically_witness :
    (handleFileChange ⟨false, Option.none⟩ (some ⟨"big.pdf", 10485761⟩) 1700000000000
      (fun _ => Except.ok "url")).uploadInitiated = false ∧
    (handleFileChange ⟨false, Option.none⟩ (some ⟨"big.pdf", 10485761⟩) 1700000000000
      (fun _ => Except.ok "url")).onFileUploadedCalls = [] ∧
    (handleFileChange ⟨false, Option.none⟩ (some ⟨"big.pdf", 10485761⟩) 1700000000000
      (fun _ => Except.ok "url")).state = ⟨false, Option.none⟩ ∧
    (handleFileChange ⟨false, Option.none⟩ (some ⟨"big.pdf", 10485761⟩) 1700000000000
      (fun _ => Except.ok "url")).inputCleared = true :=
  oversized_file_rejected_atomically ⟨false, Option.none⟩ ⟨"big.pdf", 10485761⟩
    1700000000000 (fun _ => Except.ok "url") (by decide)

/-! ## Frontend: state selector (src/frontend/app/components/StateSelector.tsx) -/

/-- One entry of the selector's `STATES` constant. -/
structure StateOption where
  code : String
  stateName : String
deriving DecidableEq

/-- Embedded from `src/frontend/app/components/StateSelector.tsx` lines
12–21: the `STATES` constant. -/
def STATES : List StateOption :=
  [⟨"VIC", "Victoria"⟩, ⟨"NSW", "New South Wales"⟩, ⟨"QLD", "Queensland"⟩,
   ⟨"SA", "South Australia"⟩, ⟨"WA", "Western Australia"⟩, ⟨"TAS", "Tasmania"⟩,
   ⟨"NT", "Northern Territory"⟩, ⟨"ACT", "Australian Capital Territory"⟩]

/-- Embedded from `StateSelector` (lines 28–45): selecting the `i`-th
rendered `SelectItem` invokes `onStateChange` with that item's `value`,
which is that state's code. -/
def stateSelectorValue (i : Fin STATES.length) : String :=
  (STATES.get i).code

/-- Modelled from the spec: the jurisdictions the local corpus supports
(README "Supported Jurisdictions: NSW, QLD, Federal"); the retrieval backend
is not under `src/`. -/
def supportedJurisdictions : List String := ["NSW", "QLD", "FED"]

/-- C10: the StateSelector offers exactly the eight jurisdiction codes VIC,
NSW, QLD, SA, WA, TAS, NT, ACT, each exactly once; `onStateChange` is only
ever invoked with one of them; and VIC is among them while the local corpus
does not support it (so VIC must take the unsupported-jurisdiction fallback
path). -/
theorem state_selector_eight_codes :
    STATES.map StateOption.code = ["VIC", "NSW", "QLD", "SA", "WA", "TAS", "NT", "ACT"] ∧
    (STATES.map StateOption.code).Nodup ∧
    STATES.length = 8 ∧
    (∀ i : Fin STATES.length, stateSelectorValue i ∈ STATES.map StateOption.code) ∧
    "VIC" ∈ STATES.map StateOption.code ∧
    "VIC" ∉ supportedJurisdictions := by
  refine ⟨rfl, by decide, rfl, ?_, by decide, by decide⟩
  intro i
  exact List.mem_map.mpr ⟨STATES.get i, List.get_mem _ _ _, rfl⟩

end LawAgent
